import Mathlib

/-!
Shallow embedding of the ng-search core engine:
the search state container (`SearchStateService`), the facet manager
(`FacetManagerService`) and the search coordinator pipeline
(`SearchCoordinatorService`), translated from the TypeScript sources in
`projects/ng-search-lib/src/lib`.

JavaScript `Map` objects are modelled as insertion-ordered association
lists (`mapSet` keeps the position of an existing key, `mapDelete`
removes it), JS `Set` objects of selection keys as insertion-ordered
duplicate-free lists, and `number` values as `Int` / `Nat` where the
code only ever handles integral values.  `Error` objects are modelled
by their message string.
-/

/-- A value that is `string | number` in TypeScript (facet selection keys,
aggregation bucket keys, filter values). -/
inductive SKey where
  | str (s : String)
  | num (n : Int)
deriving DecidableEq, Repr

/-- The possible shapes of `FilterConfig.value` produced by this engine:
a single key (`term`), a list of keys (`terms`) or a `{gte, lte}` range. -/
inductive FilterValue where
  | single (k : SKey)
  | multiple (ks : List SKey)
  | range (gte lte : SKey)
deriving DecidableEq, Repr

/-- `FilterConfig` from `types/search-types.ts`: `{field, type, value, operator?}`. -/
structure FilterConfig where
  field : String
  type : String
  value : FilterValue
  operator : Option String := none
deriving DecidableEq, Repr

/-- `SortConfig` from `types/search-types.ts`. -/
structure SortConfig where
  field : String
  order : String
deriving DecidableEq, Repr

/-- `PaginationConfig` from `types/search-types.ts`. -/
structure PaginationConfig where
  page : Int
  pageSize : Int
  total : Int
deriving DecidableEq, Repr

/-- `SearchResult<T>` from `types/search-types.ts` (optional highlight and
metadata maps are not consulted by any of the verified operations and are
omitted from the embedding). -/
structure SearchResult (α : Type) where
  id : String
  data : α
  score : Option Int := none
deriving DecidableEq, Repr

/-- `Suggestion` from `types/search-types.ts`. -/
structure Suggestion where
  id : Option String := none
  text : String
  score : Option Int := none
  count : Option Int := none
deriving DecidableEq, Repr

/-- `AggregationBucket` from `types/search-types.ts`. -/
structure AggregationBucket where
  key : SKey
  doc_count : Int
deriving DecidableEq, Repr

/-- `AggregationResult` from `types/search-types.ts` (the `stats` record is
never consulted by the verified operations). -/
structure AggregationResult where
  type : String
  buckets : Option (List AggregationBucket) := none
deriving DecidableEq, Repr

/-- `SearchQuery` from `types/search-types.ts`, as assembled by the state
container's `searchQuery` computed view.  The source field `from` is a Lean
keyword and is embedded as `fromOffset`. -/
structure SearchQuery where
  query : String
  size : Int
  fromOffset : Int
  sort : List SortConfig
  filters : List FilterConfig
deriving DecidableEq, Repr

/-- The payloads passed to `emitEvent` by the state container's methods
(`payload?: any` in the source; each emitting call site passes one of the
shapes below, or nothing). -/
inductive EventPayload where
  | queryChanged (query : String)
  | filterAdded (filter : FilterConfig)
  | filterRemoved (field : String)
  | pageChanged (page : Int) (pageSize : Option Int)
  | suggestionsReceived (count : Nat)
  | searchStarted (query : SearchQuery)
  | searchCompleted (query : SearchQuery) (total : Int) (took : Option Nat)
  | searchFailed (message : String) (query : SearchQuery)
deriving DecidableEq, Repr

/-- `SearchEvent` from `types/search-types.ts`: `{type, timestamp, payload?}`. -/
structure SearchEvent where
  type : String
  timestamp : Nat
  payload : Option EventPayload := none
deriving DecidableEq, Repr

/-- JS `Map.set`: updating an existing key keeps its position, a new key is
appended at the end. -/
def mapSet {β : Type} (m : List (String × β)) (k : String) (v : β) :
    List (String × β) :=
  if m.any (fun p => p.1 == k) then
    m.map (fun p => if p.1 == k then (k, v) else p)
  else
    m ++ [(k, v)]

/-- JS `Map.delete`. -/
def mapDelete {β : Type} (m : List (String × β)) (k : String) :
    List (String × β) :=
  m.filter (fun p => ¬ p.1 == k)

/-- JS `Map.get`. -/
def mapGet {β : Type} (m : List (String × β)) (k : String) : Option β :=
  (m.find? (fun p => p.1 == k)).map (·.2)

/-- `new Map(entries)`: inserts the entries in order. -/
def mapFromEntries {β : Type} (l : List (String × β)) : List (String × β) :=
  l.foldl (fun acc p => mapSet acc p.1 p.2) []

/-- `Array.prototype.slice(-n)`: the last `n` elements. -/
def rtake {γ : Type} (n : Nat) (l : List γ) : List γ :=
  l.drop (l.length - n)

/-- The snapshot produced by `SearchStateService.getSnapshot` (filters as an
ordered list of `(field, FilterConfig)` entries, per `Array.from(map.entries())`). -/
structure Snapshot (α : Type) where
  query : String
  results : List (SearchResult α)
  loading : Bool
  error : Option String
  total : Int
  filters : List (String × FilterConfig)
  sort : List SortConfig
  pagination : PaginationConfig
  aggregations : List (String × AggregationResult)
  suggestions : List Suggestion
deriving DecidableEq, Repr

/-- The state held by `SearchStateService` (`search-state.service.ts`):
one field per writable signal. -/
structure SearchStateService (α : Type) where
  query : String
  results : List (SearchResult α)
  loading : Bool
  loadingSuggestions : Bool
  error : Option String
  total : Int
  filters : List (String × FilterConfig)
  sort : List SortConfig
  pagination : PaginationConfig
  aggregations : List (String × AggregationResult)
  suggestions : List Suggestion
  events : List SearchEvent
  eventHistoryLimit : Option Nat
deriving DecidableEq, Repr

/-- `DEFAULT_EVENT_HISTORY_LIMIT = 100`. -/
def DEFAULT_EVENT_HISTORY_LIMIT : Nat := 100

/-- The signal defaults of a freshly constructed `SearchStateService`. -/
def SearchStateService.initial (α : Type) : SearchStateService α where
  query := ""
  results := []
  loading := false
  loadingSuggestions := false
  error := none
  total := 0
  filters := []
  sort := []
  pagination := { page := 1, pageSize := 10, total := 0 }
  aggregations := []
  suggestions := []
  events := []
  eventHistoryLimit := some DEFAULT_EVENT_HISTORY_LIMIT

namespace SearchStateService

variable {α : Type}

/-- The update applied to the `_events` signal inside `emitEvent`:
append, then keep only the newest `limit` entries (`slice(-limit)`);
`null` keeps everything, `0` disables history. -/
def pushEvent (limit : Option Nat) (events : List SearchEvent)
    (event : SearchEvent) : List SearchEvent :=
  match limit with
  | none => events ++ [event]
  | some l =>
    if l = 0 then []
    else
      let next := events ++ [event]
      if next.length > l then rtake l next else next

/-- `emitEvent(type, payload)`; `t` stands for `Date.now()` at the call. -/
def emitEvent (s : SearchStateService α) (type : String)
    (payload : Option EventPayload) (t : Nat) : SearchStateService α :=
  let event : SearchEvent := { type := type, timestamp := t, payload := payload }
  { s with events := pushEvent s.eventHistoryLimit s.events event }

/-- `setQuery(query)`. -/
def setQuery (s : SearchStateService α) (query : String) (t : Nat) :
    SearchStateService α :=
  emitEvent
    { s with query := query, pagination := { s.pagination with page := 1 } }
    "query_changed" (some (.queryChanged query)) t

/-- `setResults(results, total)` (the pagination update returns the same
object when the total is unchanged). -/
def setResults (s : SearchStateService α) (results : List (SearchResult α))
    (total : Int) : SearchStateService α :=
  { s with
    results := results
    total := total
    pagination :=
      if s.pagination.total = total then s.pagination
      else { s.pagination with total := total } }

/-- `setLoading(loading)`. -/
def setLoading (s : SearchStateService α) (loading : Bool) :
    SearchStateService α :=
  { s with loading := loading, error := if loading then none else s.error }

/-- `setLoadingSuggestions(loading)`. -/
def setLoadingSuggestions (s : SearchStateService α) (loading : Bool) :
    SearchStateService α :=
  { s with loadingSuggestions := loading }

/-- `setError(error)`. -/
def setError (s : SearchStateService α) (error : Option String) :
    SearchStateService α :=
  { s with error := error
           loading := if error.isSome then false else s.loading }

/-- `addFilter(filter)`. -/
def addFilter (s : SearchStateService α) (filter : FilterConfig) (t : Nat) :
    SearchStateService α :=
  emitEvent
    { s with filters := mapSet s.filters filter.field filter
             pagination := { s.pagination with page := 1 } }
    "filter_added" (some (.filterAdded filter)) t

/-- `removeFilter(field)`. -/
def removeFilter (s : SearchStateService α) (field : String) (t : Nat) :
    SearchStateService α :=
  emitEvent
    { s with filters := mapDelete s.filters field
             pagination := { s.pagination with page := 1 } }
    "filter_removed" (some (.filterRemoved field)) t

/-- `clearFilters()`. -/
def clearFilters (s : SearchStateService α) (t : Nat) :
    SearchStateService α :=
  emitEvent
    { s with filters := []
             pagination := { s.pagination with page := 1 } }
    "filter_cleared" none t

/-- `updateFilter(field, value)` (no event is emitted). -/
def updateFilter (s : SearchStateService α) (field : String)
    (value : FilterValue) : SearchStateService α :=
  { s with
    filters :=
      match mapGet s.filters field with
      | some existingFilter => mapSet s.filters field { existingFilter with value := value }
      | none => s.filters
    pagination := { s.pagination with page := 1 } }

/-- `setSort(sort)` (no event is emitted). -/
def setSort (s : SearchStateService α) (sort : List SortConfig) :
    SearchStateService α :=
  { s with sort := sort, pagination := { s.pagination with page := 1 } }

/-- `setPagination(page, pageSize?)`. -/
def setPagination (s : SearchStateService α) (page : Int)
    (pageSize : Option Int) (t : Nat) : SearchStateService α :=
  emitEvent
    { s with pagination :=
        { s.pagination with page := page
                            pageSize := pageSize.getD s.pagination.pageSize } }
    "page_changed" (some (.pageChanged page pageSize)) t

/-- `setAggregations(aggregations)`. -/
def setAggregations (s : SearchStateService α)
    (aggregations : List (String × AggregationResult)) : SearchStateService α :=
  { s with aggregations := aggregations }

/-- `setSuggestions(suggestions)`. -/
def setSuggestions (s : SearchStateService α) (suggestions : List Suggestion)
    (t : Nat) : SearchStateService α :=
  emitEvent { s with suggestions := suggestions }
    "suggestions_received" (some (.suggestionsReceived suggestions.length)) t

/-- `clearSuggestions()`. -/
def clearSuggestions (s : SearchStateService α) (t : Nat) :
    SearchStateService α :=
  emitEvent { s with suggestions := [] } "suggestions_cleared" none t

/-- `reset()`. -/
def reset (s : SearchStateService α) : SearchStateService α :=
  { s with
    query := ""
    results := []
    loading := false
    error := none
    total := 0
    filters := []
    sort := []
    pagination := { page := 1, pageSize := 10, total := 0 }
    aggregations := []
    suggestions := [] }

/-- `getSnapshot()`. -/
def getSnapshot (s : SearchStateService α) : Snapshot α where
  query := s.query
  results := s.results
  loading := s.loading
  error := s.error
  total := s.total
  filters := s.filters
  sort := s.sort
  pagination := s.pagination
  aggregations := s.aggregations
  suggestions := s.suggestions

/-- `restoreSnapshot(snapshot)` (`new Map(snapshot.filters)` re-inserts the
entries in order). -/
def restoreSnapshot (s : SearchStateService α) (snapshot : Snapshot α) :
    SearchStateService α :=
  { s with
    query := snapshot.query
    results := snapshot.results
    loading := snapshot.loading
    error := snapshot.error
    total := snapshot.total
    filters := mapFromEntries snapshot.filters
    sort := snapshot.sort
    pagination := snapshot.pagination
    aggregations := snapshot.aggregations
    suggestions := snapshot.suggestions }

/-- `markSearchStarted(query)`. -/
def markSearchStarted (s : SearchStateService α) (query : SearchQuery)
    (t : Nat) : SearchStateService α :=
  emitEvent s "search_started" (some (.searchStarted query)) t

/-- `markSearchCompleted({query, total, took?})`. -/
def markSearchCompleted (s : SearchStateService α) (query : SearchQuery)
    (total : Int) (took : Option Nat) (t : Nat) : SearchStateService α :=
  emitEvent s "search_completed" (some (.searchCompleted query total took)) t

/-- `markSearchFailed(error, query)`. -/
def markSearchFailed (s : SearchStateService α) (message : String)
    (query : SearchQuery) (t : Nat) : SearchStateService α :=
  emitEvent s "search_failed" (some (.searchFailed message query)) t

/-- `clearEvents()`. -/
def clearEvents (s : SearchStateService α) : SearchStateService α :=
  { s with events := [] }

/-- `trimEventHistory(limit)`. -/
def trimEventHistory (s : SearchStateService α) (limit : Option Nat) :
    SearchStateService α :=
  match limit with
  | none => s
  | some l =>
    if l = 0 then { s with events := [] }
    else if s.events.length > l then { s with events := rtake l s.events }
    else s

/-- `setEventHistoryLimit(limit?)`: the outer `Option` distinguishes an
omitted argument (`none`, reset to the default) from a passed one; the inner
`Option` is `number | null` with `null = none` (keep all events).  A passed
number is normalised with `max(0, floor(limit))`. -/
def setEventHistoryLimit (s : SearchStateService α)
    (limit : Option (Option Int)) : SearchStateService α :=
  match limit with
  | some none => { s with eventHistoryLimit := none }
  | none =>
      trimEventHistory { s with eventHistoryLimit := some DEFAULT_EVENT_HISTORY_LIMIT }
        (some DEFAULT_EVENT_HISTORY_LIMIT)
  | some (some l) =>
      let normalized := (max 0 l).toNat
      trimEventHistory { s with eventHistoryLimit := some normalized }
        (some normalized)

/-- The `searchQuery` computed view. -/
def searchQueryOf (s : SearchStateService α) : SearchQuery where
  query := s.query
  size := s.pagination.pageSize
  fromOffset := (s.pagination.page - 1) * s.pagination.pageSize
  sort := s.sort
  filters := s.filters.map (·.2)

end SearchStateService

/-- `FacetOption` from `types/facet-types.ts`. -/
structure FacetOption where
  value : SKey
  label : String
  count : Option Int := none
  disabled : Option Bool := none
deriving DecidableEq, Repr

/-- `FacetConfig` from `types/facet-types.ts` (the fields consulted by
`FacetManagerService`; `operator` is the field read as
`(config as any).operator`, present on the text/checkbox config subtypes). -/
structure FacetConfig where
  id : String
  field : String
  label : String
  type : String
  collapsible : Option Bool := none
  collapsed : Option Bool := none
  sort : Option String := none
  maxValues : Option Nat := none
  options : Option (List FacetOption) := none
  operator : Option String := none
deriving DecidableEq, Repr

/-- `FacetValue` from `types/facet-types.ts`. -/
structure FacetValue where
  key : SKey
  label : String
  count : Int
  selected : Bool
  disabled : Option Bool := none
deriving DecidableEq, Repr

/-- `FacetState` from `types/facet-types.ts`.  The JS `Set` of selected
values is modelled as its insertion-ordered element list (the order
`Array.from(set)` produces). -/
structure FacetState where
  config : FacetConfig
  values : List FacetValue
  selectedValues : List SKey
  collapsed : Bool
  visibleCount : Nat
  loading : Bool
deriving DecidableEq, Repr

/-- `FacetChangeEvent` from `types/facet-types.ts`. -/
structure FacetChangeEvent where
  facetId : String
  selectedValues : List SKey
  previousValues : List SKey
  config : FacetConfig
  filter : Option FilterConfig
deriving DecidableEq, Repr

namespace FacetManagerService

/-- `getInitialValues(config)`. -/
def getInitialValues (config : FacetConfig) : List FacetValue :=
  match config.options with
  | some opts =>
    opts.map (fun opt =>
      { key := opt.value
        label := opt.label
        count := opt.count.getD 0
        selected := false
        disabled := opt.disabled })
  | none => []

/-- `addFacet(config)` acting on the `_facets` map. -/
def addFacet (facets : List (String × FacetState)) (config : FacetConfig) :
    List (String × FacetState) :=
  let existingState := mapGet facets config.id
  let newState : FacetState :=
    { config := config
      values := (existingState.map (·.values)).getD (getInitialValues config)
      selectedValues := (existingState.map (·.selectedValues)).getD []
      collapsed := config.collapsed.getD false
      visibleCount := config.maxValues.getD 10
      loading := false }
  mapSet facets config.id newState

/-- `facetSelectionToFilter(facetState)` (`values` is
`Array.from(facetState.selectedValues)`; `values[1] ?? values[0]` picks the
second element when present, the first otherwise). -/
def facetSelectionToFilter (facetState : FacetState) : Option FilterConfig :=
  match facetState.selectedValues with
  | [] => none
  | v0 :: rest =>
    let config := facetState.config
    let values := v0 :: rest
    if config.type = "text" ∨ config.type = "text-typeahead" ∨ config.type = "checkbox" then
      if values.length = 1 then
        some { field := config.field, type := "term", value := .single v0 }
      else
        some { field := config.field, type := "terms", value := .multiple values
               operator := some (config.operator.getD "OR") }
    else if config.type = "number" then
      some { field := config.field, type := "term", value := .single v0 }
    else if config.type = "number-range" ∨ config.type = "range" ∨ config.type = "slider" then
      some { field := config.field, type := "range"
             value := .range v0 (rest.head?.getD v0) }
    else if config.type = "radio" ∨ config.type = "toggle" then
      some { field := config.field, type := "term", value := .single v0 }
    else
      some { field := config.field
             type := if values.length = 1 then "term" else "terms"
             value := if values.length = 1 then .single v0 else .multiple values }

/-- `updateFacetSelection(facetId, values)`: returns the updated `_facets`
map and the emitted `FacetChangeEvent` (`none` when the facet id is unknown
and the call is a logged no-op). -/
def updateFacetSelection (facets : List (String × FacetState))
    (facetId : String) (values : List SKey) :
    List (String × FacetState) × Option FacetChangeEvent :=
  match mapGet facets facetId with
  | none => (facets, none)
  | some facetState =>
    let updatedState : FacetState :=
      { facetState with
        selectedValues := values
        values := facetState.values.map (fun v =>
          { v with selected := values.contains v.key }) }
    let newFacets := mapSet facets facetId updatedState
    let filter := facetSelectionToFilter updatedState
    (newFacets,
     some { facetId := facetId
            selectedValues := values
            previousValues := facetState.selectedValues
            config := facetState.config
            filter := filter })

end FacetManagerService

/-- `SearchResponse<T>` from `types/search-types.ts`. -/
structure SearchResponse (α : Type) where
  results : List (SearchResult α)
  total : Int
  took : Option Nat := none
  aggregations : Option (List (String × AggregationResult)) := none
  suggestions : Option (List Suggestion) := none
deriving DecidableEq, Repr

/-- The coordinator configuration fields consulted by the search pipeline
(`SearchConfigModel` defaults: `debounceTime = 300`, `minQueryLength = 1`). -/
structure CoordConfig where
  debounceTime : Nat := 300
  minQueryLength : Nat := 1
deriving DecidableEq, Repr

/-- Where the single in-flight search pipeline instance currently is: idle,
waiting on its debounce timer, or awaiting the adapter response.  The
non-idle phases carry the query and start time captured by the `switchMap`
projection closure. -/
inductive PipePhase where
  | idle
  | debouncing (query : SearchQuery) (startedAt : Nat)
  | awaitingAdapter (query : SearchQuery) (startedAt : Nat)
deriving DecidableEq, Repr

/-- The state of a `SearchCoordinatorService` relevant to the search
pipeline: the owned state container, the config, whether an adapter is
installed, and the `switchMap` bookkeeping.  `activeGen` numbers the
generations of the `switchMap` over `searchTrigger$`: each accepted
`search()` call starts a new inner observable and unsubscribes the previous
one, which is exactly "only the newest generation may deliver values".
`subscribed` records whether `searchSubscription` is still live
(`cancel()` unsubscribes it and nothing ever re-creates it). -/
structure SearchCoordinatorService (α : Type) where
  container : SearchStateService α
  config : CoordConfig
  hasAdapter : Bool
  activeGen : Nat
  phase : PipePhase
  subscribed : Bool
deriving DecidableEq, Repr

/-- The coordinator as constructed (`setupAutoSearch` subscribes the
pipeline once; no adapter installed yet). -/
def SearchCoordinatorService.init (α : Type) : SearchCoordinatorService α where
  container := SearchStateService.initial α
  config := {}
  hasAdapter := false
  activeGen := 0
  phase := .idle
  subscribed := true

/-- The externally driven happenings of the search pipeline: a `search()`
call, the debounce timer of generation `gen` firing, and the adapter
observable of generation `gen` emitting a response or erroring.  `t` stands
for `Date.now()` at that moment. -/
inductive PipeEvent (α : Type) where
  | searchCall (q : SearchQuery) (t : Nat)
  | timerFire (gen : Nat)
  | adapterResolve (gen : Nat) (r : SearchResponse α) (t : Nat)
  | adapterReject (gen : Nat) (err : String) (t : Nat)
  | cancelCall
deriving DecidableEq, Repr

namespace SearchCoordinatorService

variable {α : Type}

/-- JS `String.prototype.trim()`: strip whitespace from both ends
(written out over the character list so that it evaluates inside the
kernel). -/
def jsTrim (s : String) : String :=
  ⟨((s.data.dropWhile Char.isWhitespace).reverse.dropWhile
      Char.isWhitespace).reverse⟩

/-- The validation in `search()`: a non-empty query text shorter than
`minQueryLength` makes the call a no-op. -/
def validQuery (config : CoordConfig) (q : SearchQuery) : Bool :=
  !(0 < (jsTrim q.query).length ∧
    (jsTrim q.query).length < config.minQueryLength)

/-- `handleSearchResponse(response)`. -/
def handleSearchResponse (c : SearchStateService α) (r : SearchResponse α)
    (t : Nat) : SearchStateService α :=
  let c1 := c.setResults r.results r.total
  let c2 :=
    match r.aggregations with
    | some aggs => c1.setAggregations aggs
    | none => c1
  match r.suggestions with
  | some sugg => if sugg.length > 0 then c2.setSuggestions sugg t else c2
  | none => c2

/-- One step of the search pipeline.

* `searchCall`: `search(q)` — no adapter or failed validation is a no-op;
  otherwise `searchTrigger$.next(q)` reaches the `switchMap` only while
  `searchSubscription` is live.  The `switchMap` first unsubscribes the
  previous inner observable (running the adapter pipe's `finalize`, i.e.
  `setLoading(false)`, only when that pipe was already subscribed — the
  `awaitingAdapter` phase), then runs the projection: `markSearchStarted`,
  `setLoading(true)`, and starts the debounce timer of the next generation.
* `timerFire`: only the timer of the current generation is still
  subscribed; it moves the pipeline to `awaitingAdapter` (or completes with
  `of(null)` when no adapter is installed).
* `adapterResolve`: a response of a superseded generation was unsubscribed
  and never reaches `map`/`subscribe` — a no-op.  The current generation's
  response flows to the subscriber (`handleSearchResponse`,
  `markSearchCompleted`) and then the inner completes, running `finalize`
  (`setLoading(false)`).
* `adapterReject`: same gating; `catchError` runs `setError`,
  `markSearchFailed`, then `finalize` clears loading.
* `cancelCall`: `cancel()` unsubscribes `searchSubscription` (running the
  adapter pipe's `finalize` when one was subscribed) and clears loading. -/
def step (m : SearchCoordinatorService α) (e : PipeEvent α) :
    SearchCoordinatorService α :=
  match e with
  | .searchCall q t =>
    if m.subscribed = false then m
    else if m.hasAdapter = false then m
    else if validQuery m.config q = false then m
    else
      let c0 :=
        match m.phase with
        | .awaitingAdapter _ _ => m.container.setLoading false
        | _ => m.container
      let c1 := c0.markSearchStarted q t
      let c2 := c1.setLoading true
      { m with container := c2, activeGen := m.activeGen + 1
               phase := .debouncing q t }
  | .timerFire gen =>
    if m.subscribed = true ∧ gen = m.activeGen then
      match m.phase with
      | .debouncing q startedAt =>
        if m.hasAdapter then { m with phase := .awaitingAdapter q startedAt }
        else { m with phase := .idle }
      | _ => m
    else m
  | .adapterResolve gen r t =>
    if m.subscribed = true ∧ gen = m.activeGen then
      match m.phase with
      | .awaitingAdapter q startedAt =>
        let duration := r.took.getD (t - startedAt)
        let c1 := handleSearchResponse m.container r t
        let c2 := c1.markSearchCompleted q r.total (some duration) t
        let c3 := c2.setLoading false
        { m with container := c3, phase := .idle }
      | _ => m
    else m
  | .adapterReject gen err t =>
    if m.subscribed = true ∧ gen = m.activeGen then
      match m.phase with
      | .awaitingAdapter q _ =>
        let c1 := m.container.setError (some err)
        let c2 := c1.markSearchFailed err q t
        let c3 := c2.setLoading false
        { m with container := c3, phase := .idle }
      | _ => m
    else m
  | .cancelCall =>
    let c0 :=
      match m.phase with
      | .awaitingAdapter _ _ => m.container.setLoading false
      | _ => m.container
    { m with container := c0.setLoading false, subscribed := false
             phase := .idle }

/-- Run a list of pipeline events in order. -/
def run (m : SearchCoordinatorService α) (evs : List (PipeEvent α)) :
    SearchCoordinatorService α :=
  evs.foldl step m

end SearchCoordinatorService

section MapLemmas

variable {β : Type}

theorem any_key_eq_false (m : List (String × β)) (k : String) :
    m.any (fun p => p.1 == k) = false ↔ k ∉ m.map Prod.fst := by
  constructor
  · intro h hmem
    obtain ⟨p, hp, hpk⟩ := List.mem_map.mp hmem
    have htrue : m.any (fun p => p.1 == k) = true :=
      List.any_eq_true.mpr ⟨p, hp, by simp [hpk]⟩
    simp [h] at htrue
  · intro h
    by_contra hne
    rw [Bool.not_eq_false, List.any_eq_true] at hne
    obtain ⟨p, hp, hpk⟩ := hne
    exact h (List.mem_map.mpr ⟨p, hp, beq_iff_eq.mp hpk⟩)

theorem map_fst_mapSet (m : List (String × β)) (k : String) (v : β) :
    (mapSet m k v).map Prod.fst =
      if m.any (fun p => p.1 == k) then m.map Prod.fst
      else m.map Prod.fst ++ [k] := by
  unfold mapSet
  split
  · rw [List.map_map]
    refine List.map_congr_left ?_
    intro p _
    by_cases h : p.1 = k
    · simp [h]
    · simp [h]
  · simp

theorem nodup_keys_mapSet {m : List (String × β)} {k : String} {v : β}
    (h : (m.map Prod.fst).Nodup) : ((mapSet m k v).map Prod.fst).Nodup := by
  rw [map_fst_mapSet]
  split
  · exact h
  · next hany =>
    have hk : k ∉ m.map Prod.fst :=
      (any_key_eq_false m k).mp (Bool.eq_false_iff.mpr hany)
    simp [List.nodup_append, h, hk]

theorem nodup_keys_mapDelete {m : List (String × β)} (k : String)
    (h : (m.map Prod.fst).Nodup) : ((mapDelete m k).map Prod.fst).Nodup :=
  ((List.filter_sublist m).map Prod.fst).nodup h

theorem mapSet_of_not_mem {m : List (String × β)} {k : String} (v : β)
    (h : k ∉ m.map Prod.fst) : mapSet m k v = m ++ [(k, v)] := by
  have hfalse : m.any (fun p => p.1 == k) = false := (any_key_eq_false m k).mpr h
  unfold mapSet
  rw [if_neg (by simp [hfalse])]

theorem mapFromEntries_aux (l : List (String × β)) :
    ∀ acc : List (String × β), ((acc ++ l).map Prod.fst).Nodup →
      l.foldl (fun a p => mapSet a p.1 p.2) acc = acc ++ l := by
  induction l with
  | nil => intro acc _; simp
  | cons p tl ih =>
    intro acc h
    have hk : p.1 ∉ acc.map Prod.fst := by
      intro hmem
      rw [List.map_append, List.nodup_append] at h
      exact h.2.2 hmem (by simp)
    have heq : (acc ++ [(p.1, p.2)]) ++ tl = acc ++ p :: tl := by simp
    rw [List.foldl_cons, mapSet_of_not_mem _ hk,
      ih (acc ++ [(p.1, p.2)]) (by rw [heq]; exact h), heq]

theorem mapFromEntries_eq_self {l : List (String × β)}
    (h : (l.map Prod.fst).Nodup) : mapFromEntries l = l := by
  unfold mapFromEntries
  simpa using mapFromEntries_aux l [] (by simpa using h)

theorem find?_map_replace (m : List (String × β)) (k : String) (v : β) :
    (m.map (fun p => if p.1 == k then (k, v) else p)).find? (fun p => p.1 == k)
      = (m.find? (fun p => p.1 == k)).map (fun _ => (k, v)) := by
  induction m with
  | nil => rfl
  | cons p m ih =>
    by_cases h : p.1 = k
    · simp [h]
    · rw [List.map_cons, if_neg (by simpa using h),
        List.find?_cons_of_neg _ (by simpa using h),
        List.find?_cons_of_neg _ (by simpa using h), ih]

theorem mapGet_mapSet_self (m : List (String × β)) (k : String) (v : β) :
    mapGet (mapSet m k v) k = some v := by
  unfold mapSet mapGet
  split
  · next hany =>
    rw [find?_map_replace]
    have hsome : (m.find? (fun p => p.1 == k)).isSome := by
      obtain ⟨x, hx, hpx⟩ := List.any_eq_true.mp hany
      exact List.find?_isSome.mpr ⟨x, hx, hpx⟩
    obtain ⟨y, hy⟩ := Option.isSome_iff_exists.mp hsome
    rw [hy]
    rfl
  · next hany =>
    have hnone : m.find? (fun p => p.1 == k) = none := by
      rw [List.find?_eq_none]
      intro x hx hpx
      exact hany (List.any_eq_true.mpr ⟨x, hx, hpx⟩)
    rw [List.find?_append, hnone]
    simp [List.find?]

end MapLemmas

section RtakeLemmas

variable {γ : Type}

theorem rtake_reverse_take (n : Nat) (l : List γ) :
    rtake n l = (l.reverse.take n).reverse :=
  List.rtake_eq_reverse_take_reverse l n

theorem rtake_eq_self_of_le {n : Nat} {l : List γ} (h : l.length ≤ n) :
    rtake n l = l := by
  unfold rtake
  simp [Nat.sub_eq_zero_of_le h]

theorem rtake_length_le (n : Nat) (l : List γ) : (rtake n l).length ≤ n := by
  unfold rtake
  simp only [List.length_drop]
  omega

theorem take_append_take (n : Nat) (x y : List γ) :
    (x ++ y.take n).take n = (x ++ y).take n := by
  rw [List.take_append_eq_append_take, List.take_append_eq_append_take,
    List.take_take]
  congr 1
  exact congrArg (y.take ·) (Nat.min_eq_left (Nat.sub_le n x.length))

theorem rtake_append_rtake (n : Nat) (a b : List γ) :
    rtake n (rtake n a ++ b) = rtake n (a ++ b) := by
  rw [rtake_reverse_take n (rtake n a ++ b), rtake_reverse_take n (a ++ b),
    rtake_reverse_take n a]
  rw [List.reverse_append, List.reverse_append, List.reverse_reverse]
  rw [take_append_take]

end RtakeLemmas

namespace SearchStateService

variable {α : Type}

theorem pushEvent_eq_rtake {n : Nat} (hn : 0 < n) (es : List SearchEvent)
    (e : SearchEvent) : pushEvent (some n) es e = rtake n (es ++ [e]) := by
  show (if n = 0 then []
        else if (es ++ [e]).length > n then rtake n (es ++ [e]) else es ++ [e])
      = rtake n (es ++ [e])
  rw [if_neg (Nat.pos_iff_ne_zero.mp hn)]
  split
  · rfl
  · next h => exact (rtake_eq_self_of_le (Nat.le_of_not_lt h)).symm

end SearchStateService

/-- The state container's mutation methods as explicit operations, used to
quantify over arbitrary call sequences. -/
inductive MutOp (α : Type) where
  | setQuery (q : String)
  | setResults (results : List (SearchResult α)) (total : Int)
  | setLoading (b : Bool)
  | setLoadingSuggestions (b : Bool)
  | setError (e : Option String)
  | addFilter (f : FilterConfig)
  | removeFilter (field : String)
  | clearFilters
  | updateFilter (field : String) (v : FilterValue)
  | setSort (sort : List SortConfig)
  | setPagination (page : Int) (pageSize : Option Int)
  | setAggregations (aggs : List (String × AggregationResult))
  | setSuggestions (l : List Suggestion)
  | clearSuggestions
deriving DecidableEq, Repr

namespace MutOp

variable {α : Type}

/-- Apply one mutation method at time `t`. -/
def apply (s : SearchStateService α) : MutOp α → Nat → SearchStateService α
  | .setQuery q, t => s.setQuery q t
  | .setResults rs total, _ => s.setResults rs total
  | .setLoading b, _ => s.setLoading b
  | .setLoadingSuggestions b, _ => s.setLoadingSuggestions b
  | .setError e, _ => s.setError e
  | .addFilter f, t => s.addFilter f t
  | .removeFilter field, t => s.removeFilter field t
  | .clearFilters, t => s.clearFilters t
  | .updateFilter field v, _ => s.updateFilter field v
  | .setSort sort, _ => s.setSort sort
  | .setPagination page pageSize, t => s.setPagination page pageSize t
  | .setAggregations aggs, _ => s.setAggregations aggs
  | .setSuggestions l, t => s.setSuggestions l t
  | .clearSuggestions, t => s.clearSuggestions t

/-- The events a mutation method emits when called at time `t`
(one event for the emitting methods, none for the silent ones). -/
def emitted : MutOp α → Nat → List SearchEvent
  | .setQuery q, t => [⟨"query_changed", t, some (.queryChanged q)⟩]
  | .addFilter f, t => [⟨"filter_added", t, some (.filterAdded f)⟩]
  | .removeFilter field, t => [⟨"filter_removed", t, some (.filterRemoved field)⟩]
  | .clearFilters, t => [⟨"filter_cleared", t, none⟩]
  | .setPagination page pageSize, t =>
      [⟨"page_changed", t, some (.pageChanged page pageSize)⟩]
  | .setSuggestions l, t =>
      [⟨"suggestions_received", t, some (.suggestionsReceived l.length)⟩]
  | .clearSuggestions, t => [⟨"suggestions_cleared", t, none⟩]
  | _, _ => []

/-- Apply a sequence of mutation calls (each paired with its call time). -/
def applyAll (s : SearchStateService α) (ops : List (MutOp α × Nat)) :
    SearchStateService α :=
  ops.foldl (fun acc p => apply acc p.1 p.2) s

theorem apply_eventHistoryLimit (s : SearchStateService α) (op : MutOp α)
    (t : Nat) : (apply s op t).eventHistoryLimit = s.eventHistoryLimit := by
  cases op <;>
    simp [apply, SearchStateService.setQuery, SearchStateService.setResults,
      SearchStateService.setLoading, SearchStateService.setLoadingSuggestions,
      SearchStateService.setError, SearchStateService.addFilter,
      SearchStateService.removeFilter, SearchStateService.clearFilters,
      SearchStateService.updateFilter, SearchStateService.setSort,
      SearchStateService.setPagination, SearchStateService.setAggregations,
      SearchStateService.setSuggestions, SearchStateService.clearSuggestions,
      SearchStateService.emitEvent]

theorem apply_events {n : Nat} (hn : 0 < n) (s : SearchStateService α)
    (hlim : s.eventHistoryLimit = some n) (hlen : s.events.length ≤ n)
    (op : MutOp α) (t : Nat) :
    (apply s op t).events = rtake n (s.events ++ emitted op t) := by
  cases op <;>
    simp only [apply, emitted, SearchStateService.setQuery,
      SearchStateService.setResults, SearchStateService.setLoading,
      SearchStateService.setLoadingSuggestions, SearchStateService.setError,
      SearchStateService.addFilter, SearchStateService.removeFilter,
      SearchStateService.clearFilters, SearchStateService.updateFilter,
      SearchStateService.setSort, SearchStateService.setPagination,
      SearchStateService.setAggregations, SearchStateService.setSuggestions,
      SearchStateService.clearSuggestions, SearchStateService.emitEvent,
      hlim, SearchStateService.pushEvent_eq_rtake hn] <;>
    rw [List.append_nil, rtake_eq_self_of_le hlen]

end MutOp

/-- The concatenation of everything a sequence of mutation calls emits. -/
def MutOp.emittedAll {α : Type} : List (MutOp α × Nat) → List SearchEvent
  | [] => []
  | p :: tl => MutOp.emitted p.1 p.2 ++ MutOp.emittedAll tl

namespace MutOp

variable {α : Type}

theorem applyAll_events {n : Nat} (hn : 0 < n) (ops : List (MutOp α × Nat)) :
    ∀ s : SearchStateService α, s.eventHistoryLimit = some n →
      s.events.length ≤ n →
      (applyAll s ops).events = rtake n (s.events ++ emittedAll ops) := by
  induction ops with
  | nil =>
    intro s _ hlen
    simp [applyAll, emittedAll, rtake_eq_self_of_le hlen]
  | cons p tl ih =>
    intro s hlim hlen
    have hev := apply_events hn s hlim hlen p.1 p.2
    have hlim2 : (apply s p.1 p.2).eventHistoryLimit = some n := by
      rw [apply_eventHistoryLimit]; exact hlim
    have hlen2 : (apply s p.1 p.2).events.length ≤ n := by
      rw [hev]; exact rtake_length_le n _
    have hstep : applyAll s (p :: tl) = applyAll (apply s p.1 p.2) tl := rfl
    rw [hstep, ih _ hlim2 hlen2, hev, rtake_append_rtake, List.append_assoc]
    rfl

end MutOp

namespace SearchStateService

variable {α : Type}

/-- The `currentPage` computed view. -/
def currentPage (s : SearchStateService α) : Int := s.pagination.page

/-- The states of a `SearchStateService` reachable from construction through
its public mutation methods. -/
inductive Reach : SearchStateService α → Prop where
  | init : Reach (initial α)
  | mutOp {s : SearchStateService α} (op : MutOp α) (t : Nat) :
      Reach s → Reach (MutOp.apply s op t)
  | reset {s : SearchStateService α} : Reach s → Reach s.reset
  | restoreSnapshot {s : SearchStateService α} (snap : Snapshot α) :
      Reach s → Reach (s.restoreSnapshot snap)
  | markSearchStarted {s : SearchStateService α} (q : SearchQuery) (t : Nat) :
      Reach s → Reach (s.markSearchStarted q t)
  | markSearchCompleted {s : SearchStateService α} (q : SearchQuery)
      (total : Int) (took : Option Nat) (t : Nat) :
      Reach s → Reach (s.markSearchCompleted q total took t)
  | markSearchFailed {s : SearchStateService α} (msg : String)
      (q : SearchQuery) (t : Nat) : Reach s → Reach (s.markSearchFailed msg q t)
  | clearEvents {s : SearchStateService α} : Reach s → Reach s.clearEvents
  | setEventHistoryLimit {s : SearchStateService α} (l : Option (Option Int)) :
      Reach s → Reach (s.setEventHistoryLimit l)

theorem nodup_keys_mapFromEntries {β : Type} (l : List (String × β)) :
    ((mapFromEntries l).map Prod.fst).Nodup := by
  unfold mapFromEntries
  suffices h : ∀ acc : List (String × β), (acc.map Prod.fst).Nodup →
      ((l.foldl (fun a p => mapSet a p.1 p.2) acc).map Prod.fst).Nodup from
    h [] (by simp)
  induction l with
  | nil => intro acc h; simpa using h
  | cons p tl ih => intro acc h; exact ih _ (nodup_keys_mapSet h)

theorem trimEventHistory_filters (s : SearchStateService α) (l : Option Nat) :
    (s.trimEventHistory l).filters = s.filters := by
  unfold trimEventHistory
  cases l with
  | none => rfl
  | some n =>
    dsimp only
    split
    · rfl
    · split <;> rfl

theorem setEventHistoryLimit_filters (s : SearchStateService α)
    (l : Option (Option Int)) :
    (s.setEventHistoryLimit l).filters = s.filters := by
  unfold setEventHistoryLimit
  cases l with
  | none => simp [trimEventHistory_filters]
  | some o => cases o <;> simp [trimEventHistory_filters]

/-- Every reachable state has duplicate-free filter-map keys (the filter map
is a JS `Map`, so this is the induced well-formedness of its list model). -/
theorem Reach.nodup_filter_keys {s : SearchStateService α} (h : Reach s) :
    (s.filters.map Prod.fst).Nodup := by
  induction h with
  | init => simp [initial]
  | mutOp op t _ ih =>
    cases op
    case addFilter f =>
      simpa [MutOp.apply, addFilter, emitEvent] using nodup_keys_mapSet ih
    case removeFilter field =>
      simpa [MutOp.apply, removeFilter, emitEvent] using
        nodup_keys_mapDelete field ih
    case clearFilters => simp [MutOp.apply, clearFilters, emitEvent]
    case updateFilter field v =>
      simp only [MutOp.apply, updateFilter]
      split
      · exact nodup_keys_mapSet ih
      · exact ih
    all_goals
      simpa [MutOp.apply, setQuery, setResults, setLoading,
        setLoadingSuggestions, setError, setSort, setPagination,
        setAggregations, setSuggestions, clearSuggestions, emitEvent] using ih
  | reset _ ih => simp [SearchStateService.reset]
  | restoreSnapshot snap _ _ =>
    simpa [restoreSnapshot] using nodup_keys_mapFromEntries snap.filters
  | markSearchStarted q t _ ih =>
    simpa [markSearchStarted, emitEvent] using ih
  | markSearchCompleted q total took t _ ih =>
    simpa [markSearchCompleted, emitEvent] using ih
  | markSearchFailed msg q t _ ih =>
    simpa [markSearchFailed, emitEvent] using ih
  | clearEvents _ ih => simpa [clearEvents] using ih
  | setEventHistoryLimit l _ ih => simpa [setEventHistoryLimit_filters] using ih

end SearchStateService

/-- C2: after any call to `setQuery`, `addFilter`, `removeFilter`,
`clearFilters` or `setSort` on any state, `currentPage` equals 1 regardless
of its previous value; `setPagination` instead sets exactly the page it was
given (it is not subject to the reset). -/
theorem c2_page_reset_invariant {α : Type} (s : SearchStateService α)
    (q : String) (f : FilterConfig) (fld : String) (srt : List SortConfig)
    (p : Int) (ps : Option Int) (t : Nat) :
    (s.setQuery q t).currentPage = 1 ∧
    (s.addFilter f t).currentPage = 1 ∧
    (s.removeFilter fld t).currentPage = 1 ∧
    (s.clearFilters t).currentPage = 1 ∧
    (s.setSort srt).currentPage = 1 ∧
    (s.setPagination p ps t).currentPage = p := by
  refine ⟨?_, ?_, ?_, ?_, ?_, ?_⟩ <;>
    simp [SearchStateService.setQuery, SearchStateService.addFilter,
      SearchStateService.removeFilter, SearchStateService.clearFilters,
      SearchStateService.setSort, SearchStateService.setPagination,
      SearchStateService.currentPage, SearchStateService.emitEvent]

/-- C5: `setLoading(true)` leaves the error cleared, and `setError` with a
non-null error leaves loading false, so neither call can leave the loading
flag and a non-null error set together. -/
theorem c5_loading_error_exclusion {α : Type} (s : SearchStateService α)
    (e : String) :
    (s.setLoading true).loading = true ∧
    (s.setLoading true).error = none ∧
    (s.setError (some e)).error = some e ∧
    (s.setError (some e)).loading = false := by
  refine ⟨?_, ?_, ?_, ?_⟩ <;>
    simp [SearchStateService.setLoading, SearchStateService.setError]

/-- C4 counterexample: `reset()` does not restore the suggestions-loading
flag or the event history, so the reset container is not observationally
equal to a fresh one. -/
theorem c4_reset_counterexample :
    (((SearchStateService.initial Nat).setQuery "rick" 1
        |>.setLoadingSuggestions true).reset.loadingSuggestions = true ∧
     ((SearchStateService.initial Nat).setQuery "rick" 1
        |>.setLoadingSuggestions true).reset.events.length = 1 ∧
     (SearchStateService.initial Nat).loadingSuggestions = false ∧
     (SearchStateService.initial Nat).events.length = 0) ∧
    ((SearchStateService.initial Nat).setQuery "rick" 1
        |>.setLoadingSuggestions true).reset ≠ SearchStateService.initial Nat := by
  refine ⟨⟨?_, ?_, ?_, ?_⟩, ?_⟩ <;> decide

/-- C4 (amended): `reset()` restores query, results, loading, error, total,
filters, sort, pagination, aggregations and suggestions to their initial
defaults, but leaves the suggestions-loading flag, the event history and the
event-history limit unchanged. -/
theorem c4_reset_amended {α : Type} (s : SearchStateService α) :
    s.reset.query = "" ∧ s.reset.results = [] ∧ s.reset.loading = false ∧
    s.reset.error = none ∧ s.reset.total = 0 ∧ s.reset.filters = [] ∧
    s.reset.sort = [] ∧ s.reset.pagination = ⟨1, 10, 0⟩ ∧
    s.reset.aggregations = [] ∧ s.reset.suggestions = [] ∧
    s.reset.loadingSuggestions = s.loadingSuggestions ∧
    s.reset.events = s.events ∧
    s.reset.eventHistoryLimit = s.eventHistoryLimit := by
  refine ⟨?_, ?_, ?_, ?_, ?_, ?_, ?_, ?_, ?_, ?_, ?_, ?_, ?_⟩ <;>
    simp [SearchStateService.reset]

/-- C9: with a configured event-history limit `n > 0` and a buffer within
bound, any sequence of mutation calls leaves the buffer equal to the last
`n` of the previous buffer followed by everything the calls emitted, in
emission order — so at most `n` events, and exactly the `n` most recent
(oldest first) once more than `n` have been emitted. -/
theorem c9_event_history_bound {α : Type} (s : SearchStateService α)
    (ops : List (MutOp α × Nat)) (n : Nat)
    (hlim : s.eventHistoryLimit = some n) (hn : 0 < n)
    (hlen : s.events.length ≤ n) :
    (MutOp.applyAll s ops).events
        = rtake n (s.events ++ MutOp.emittedAll ops) ∧
    (MutOp.applyAll s ops).events.length ≤ n := by
  have h := MutOp.applyAll_events hn ops s hlim hlen
  exact ⟨h, h ▸ rtake_length_le n _⟩

/-- A concrete container configured with `eventHistoryLimit = 3`. -/
def c9WitState : SearchStateService Nat :=
  (SearchStateService.initial Nat).setEventHistoryLimit (some (some 3))

/-- Five event-emitting mutation calls. -/
def c9WitOps : List (MutOp Nat × Nat) :=
  [(MutOp.setQuery "a", 1), (MutOp.setQuery "b", 2), (MutOp.clearFilters, 3),
   (MutOp.setQuery "c", 4), (MutOp.setQuery "d", 5)]

/-- Witness for C9: limit 3, five emitting calls, the three most recent
events remain in order. -/
theorem c9_event_history_bound_witness :
    c9WitState.eventHistoryLimit = some 3 ∧ 0 < 3 ∧
    c9WitState.events.length ≤ 3 ∧
    ((MutOp.applyAll c9WitState c9WitOps).events
        = rtake 3 (c9WitState.events ++ MutOp.emittedAll c9WitOps) ∧
      (MutOp.applyAll c9WitState c9WitOps).events.length ≤ 3) :=
  ⟨by decide, by decide, by decide,
   c9_event_history_bound c9WitState c9WitOps 3 (by decide) (by decide)
     (by decide)⟩

/-- C3: restoring a reachable state's snapshot onto a freshly constructed
container reproduces each observable field — query, results, loading,
error, total, the filter map (entries and order), sort, pagination,
aggregations and suggestions — exactly. -/
theorem c3_snapshot_roundtrip {α : Type} (s : SearchStateService α)
    (h : SearchStateService.Reach s) :
    ((SearchStateService.initial α).restoreSnapshot s.getSnapshot).query = s.query ∧
    ((SearchStateService.initial α).restoreSnapshot s.getSnapshot).results = s.results ∧
    ((SearchStateService.initial α).restoreSnapshot s.getSnapshot).loading = s.loading ∧
    ((SearchStateService.initial α).restoreSnapshot s.getSnapshot).error = s.error ∧
    ((SearchStateService.initial α).restoreSnapshot s.getSnapshot).total = s.total ∧
    ((SearchStateService.initial α).restoreSnapshot s.getSnapshot).filters = s.filters ∧
    ((SearchStateService.initial α).restoreSnapshot s.getSnapshot).sort = s.sort ∧
    ((SearchStateService.initial α).restoreSnapshot s.getSnapshot).pagination = s.pagination ∧
    ((SearchStateService.initial α).restoreSnapshot s.getSnapshot).aggregations = s.aggregations ∧
    ((SearchStateService.initial α).restoreSnapshot s.getSnapshot).suggestions = s.suggestions := by
  refine ⟨rfl, rfl, rfl, rfl, rfl, ?_, rfl, rfl, rfl, rfl⟩
  exact mapFromEntries_eq_self h.nodup_filter_keys

/-- A concrete reachable state: fresh container, then `setQuery`, then
`addFilter`. -/
def c3WitState : SearchStateService Nat :=
  MutOp.apply
    (MutOp.apply (SearchStateService.initial Nat) (MutOp.setQuery "rick") 1)
    (MutOp.addFilter { field := "status", type := "term"
                       value := .single (.str "alive") }) 2

/-- Witness for C3 at a concrete reachable state. -/
theorem c3_snapshot_roundtrip_witness :
    SearchStateService.Reach c3WitState ∧
    (((SearchStateService.initial Nat).restoreSnapshot c3WitState.getSnapshot).query = c3WitState.query ∧
     ((SearchStateService.initial Nat).restoreSnapshot c3WitState.getSnapshot).results = c3WitState.results ∧
     ((SearchStateService.initial Nat).restoreSnapshot c3WitState.getSnapshot).loading = c3WitState.loading ∧
     ((SearchStateService.initial Nat).restoreSnapshot c3WitState.getSnapshot).error = c3WitState.error ∧
     ((SearchStateService.initial Nat).restoreSnapshot c3WitState.getSnapshot).total = c3WitState.total ∧
     ((SearchStateService.initial Nat).restoreSnapshot c3WitState.getSnapshot).filters = c3WitState.filters ∧
     ((SearchStateService.initial Nat).restoreSnapshot c3WitState.getSnapshot).sort = c3WitState.sort ∧
     ((SearchStateService.initial Nat).restoreSnapshot c3WitState.getSnapshot).pagination = c3WitState.pagination ∧
     ((SearchStateService.initial Nat).restoreSnapshot c3WitState.getSnapshot).aggregations = c3WitState.aggregations ∧
     ((SearchStateService.initial Nat).restoreSnapshot c3WitState.getSnapshot).suggestions = c3WitState.suggestions) :=
  ⟨.mutOp _ 2 (.mutOp _ 1 .init),
   c3_snapshot_roundtrip c3WitState (.mutOp _ 2 (.mutOp _ 1 .init))⟩

/-- A `radio` facet with two selected keys. -/
def c6RadioFacet : FacetState where
  config := { id := "status", field := "status", label := "Status"
              type := "radio" }
  values := []
  selectedValues := [.str "alive", .str "dead"]
  collapsed := false
  visibleCount := 10
  loading := false

/-- C6 counterexample: a `radio` facet with two selected keys derives a
`term` filter on the first key, not a `terms` filter holding all keys as
the claim states for the radio kind. -/
theorem c6_counterexample :
    c6RadioFacet.config.type = "radio" ∧
    c6RadioFacet.selectedValues.length = 2 ∧
    FacetManagerService.facetSelectionToFilter c6RadioFacet
      = some { field := "status", type := "term"
               value := .single (.str "alive") } ∧
    (FacetManagerService.facetSelectionToFilter c6RadioFacet).map
        FilterConfig.type ≠ some "terms" := by
  refine ⟨?_, ?_, ?_, ?_⟩ <;> decide

/-- C6 (amended): for `text`, `text-typeahead` and `checkbox` facets a
single selected key derives a `term` filter on that key and several keys
derive a `terms` filter holding all keys with the configured operator
(default `OR`); for `radio` and `toggle` facets the derived filter is
always a `term` filter on the first selected key, however many keys are
selected. -/
theorem c6_facet_filter_mapping (fs : FacetState) (k : SKey)
    (ks : List SKey) (hsel : fs.selectedValues = k :: ks) :
    (fs.config.type ∈ (["text", "text-typeahead", "checkbox"] : List String) →
      FacetManagerService.facetSelectionToFilter fs =
        if ks = [] then
          some { field := fs.config.field, type := "term", value := .single k }
        else
          some { field := fs.config.field, type := "terms"
                 value := .multiple (k :: ks)
                 operator := some (fs.config.operator.getD "OR") }) ∧
    (fs.config.type ∈ (["radio", "toggle"] : List String) →
      FacetManagerService.facetSelectionToFilter fs =
        some { field := fs.config.field, type := "term"
               value := .single k }) := by
  constructor
  · intro hty
    have hty3 : fs.config.type = "text" ∨ fs.config.type = "text-typeahead" ∨
        fs.config.type = "checkbox" := by simpa using hty
    cases ks with
    | nil =>
      rcases hty3 with h | h | h <;>
        simp [FacetManagerService.facetSelectionToFilter, hsel, h]
    | cons k2 tl =>
      rcases hty3 with h | h | h <;>
        simp [FacetManagerService.facetSelectionToFilter, hsel, h]
  · intro hty
    have hty2 : fs.config.type = "radio" ∨ fs.config.type = "toggle" := by
      simpa using hty
    rcases hty2 with h | h <;>
      simp [FacetManagerService.facetSelectionToFilter, hsel, h]

/-- A `text` facet with two selected keys. -/
def c6TextFacet : FacetState where
  config := { id := "status", field := "status", label := "Status"
              type := "text" }
  values := []
  selectedValues := [.str "alive", .str "dead"]
  collapsed := false
  visibleCount := 10
  loading := false

/-- A `toggle` facet with two selected keys. -/
def c6ToggleFacet : FacetState where
  config := { id := "enabled", field := "enabled", label := "Enabled"
              type := "toggle" }
  values := []
  selectedValues := [.str "on", .str "off"]
  collapsed := false
  visibleCount := 10
  loading := false

/-- Witness for the amended C6 at concrete text and toggle facets. -/
theorem c6_facet_filter_mapping_witness :
    (c6TextFacet.selectedValues = SKey.str "alive" :: [SKey.str "dead"] ∧
     FacetManagerService.facetSelectionToFilter c6TextFacet
        = some { field := "status", type := "terms"
                 value := .multiple [.str "alive", .str "dead"]
                 operator := some "OR" }) ∧
    (c6ToggleFacet.selectedValues = SKey.str "on" :: [SKey.str "off"] ∧
     FacetManagerService.facetSelectionToFilter c6ToggleFacet
        = some { field := "enabled", type := "term"
                 value := .single (.str "on") }) := by
  refine ⟨⟨rfl, ?_⟩, ⟨rfl, ?_⟩⟩
  · simpa using
      (c6_facet_filter_mapping c6TextFacet (SKey.str "alive")
        [SKey.str "dead"] rfl).1 (by decide)
  · simpa using
      (c6_facet_filter_mapping c6ToggleFacet (SKey.str "on")
        [SKey.str "off"] rfl).2 (by decide)

/-- C7: a `number-range`, `range` or `slider` facet with a non-empty
selection derives a `range` filter on the facet's field with
`gte = values[0]` and `lte = values[1] ?? values[0]`. -/
theorem c7_range_facet_mapping (fs : FacetState) (k : SKey) (ks : List SKey)
    (hsel : fs.selectedValues = k :: ks)
    (hty : fs.config.type ∈ (["number-range", "range", "slider"] : List String)) :
    FacetManagerService.facetSelectionToFilter fs =
      some { field := fs.config.field, type := "range"
             value := .range k (ks.head?.getD k) } := by
  have hty3 : fs.config.type = "number-range" ∨ fs.config.type = "range" ∨
      fs.config.type = "slider" := by simpa using hty
  rcases hty3 with h | h | h <;>
    simp [FacetManagerService.facetSelectionToFilter, hsel, h]

/-- A `number-range` facet with the selection pair `(10, 50)`. -/
def c7PairFacet : FacetState where
  config := { id := "price", field := "price", label := "Price"
              type := "number-range" }
  values := []
  selectedValues := [.num 10, .num 50]
  collapsed := false
  visibleCount := 10
  loading := false

/-- A `range` facet with the lone selection `(10)`. -/
def c7LoneFacet : FacetState where
  config := { id := "price", field := "price", label := "Price"
              type := "range" }
  values := []
  selectedValues := [.num 10]
  collapsed := false
  visibleCount := 10
  loading := false

/-- Witness for C7: `(10, 50)` gives `{gte:10, lte:50}`, `(10)` gives
`{gte:10, lte:10}`. -/
theorem c7_range_facet_mapping_witness :
    (c7PairFacet.selectedValues = SKey.num 10 :: [SKey.num 50] ∧
     FacetManagerService.facetSelectionToFilter c7PairFacet
        = some { field := "price", type := "range"
                 value := .range (.num 10) (.num 50) }) ∧
    (c7LoneFacet.selectedValues = SKey.num 10 :: ([] : List SKey) ∧
     FacetManagerService.facetSelectionToFilter c7LoneFacet
        = some { field := "price", type := "range"
                 value := .range (.num 10) (.num 10) }) := by
  refine ⟨⟨rfl, ?_⟩, ⟨rfl, ?_⟩⟩
  · simpa using c7_range_facet_mapping c7PairFacet (SKey.num 10)
      [SKey.num 50] rfl (by decide)
  · simpa using c7_range_facet_mapping c7LoneFacet (SKey.num 10) [] rfl
      (by decide)

/-- First registration of facet `"f"`: one static option `x`. -/
def c8Cfg1 : FacetConfig where
  id := "f"
  field := "f"
  label := "F"
  type := "checkbox"
  options := some [{ value := .str "x", label := "X" }]

/-- Re-registration of facet `"f"`: one static option `y` (so the key `x`
no longer applies). -/
def c8Cfg2 : FacetConfig where
  id := "f"
  field := "f"
  label := "F"
  type := "checkbox"
  options := some [{ value := .str "y", label := "Y" }]

/-- Facet map after registering `c8Cfg1` and selecting key `x`. -/
def c8Map1 : List (String × FacetState) :=
  (FacetManagerService.updateFacetSelection
    (FacetManagerService.addFacet [] c8Cfg1) "f" [.str "x"]).1

/-- The state stored for facet `"f"` in `c8Map1`. -/
def c8St0 : FacetState where
  config := c8Cfg1
  values := [{ key := .str "x", label := "X", count := 0, selected := true }]
  selectedValues := [.str "x"]
  collapsed := false
  visibleCount := 10
  loading := false

/-- C8 counterexample: re-registering facet `"f"` with `c8Cfg2` keeps the
old value list (it is not replaced by the new config's values) and carries
over the selected key `x` even though `x` does not apply to the new
values. -/
theorem c8_counterexample :
    (mapGet (FacetManagerService.addFacet c8Map1 c8Cfg2) "f").map
        FacetState.values
      = some [{ key := .str "x", label := "X", count := 0, selected := true }] ∧
    FacetManagerService.getInitialValues c8Cfg2
      = [{ key := .str "y", label := "Y", count := 0, selected := false }] ∧
    (mapGet (FacetManagerService.addFacet c8Map1 c8Cfg2) "f").map
        FacetState.values
      ≠ some (FacetManagerService.getInitialValues c8Cfg2) ∧
    (mapGet (FacetManagerService.addFacet c8Map1 c8Cfg2) "f").map
        FacetState.selectedValues = some [.str "x"] ∧
    (FacetManagerService.getInitialValues c8Cfg2).any
        (fun v => v.key == .str "x") = false := by
  refine ⟨?_, ?_, ?_, ?_, ?_⟩ <;> decide

/-- C8 (amended): calling `addFacet` for an already registered id replaces
the stored config (and re-derives `collapsed` and `visibleCount` from the
new config, resetting `loading`), but keeps the previously stored value
list and carries over the entire existing selection set unchanged — whether
or not its keys still apply to the new config. -/
theorem c8_addFacet_rereg (m : List (String × FacetState))
    (cfg : FacetConfig) (st : FacetState) (hget : mapGet m cfg.id = some st) :
    mapGet (FacetManagerService.addFacet m cfg) cfg.id =
      some { config := cfg
             values := st.values
             selectedValues := st.selectedValues
             collapsed := cfg.collapsed.getD false
             visibleCount := cfg.maxValues.getD 10
             loading := false } := by
  unfold FacetManagerService.addFacet
  rw [hget]
  exact mapGet_mapSet_self m cfg.id _

/-- Witness for the amended C8 at the concrete re-registration above. -/
theorem c8_addFacet_rereg_witness :
    mapGet c8Map1 c8Cfg2.id = some c8St0 ∧
    mapGet (FacetManagerService.addFacet c8Map1 c8Cfg2) c8Cfg2.id =
      some { config := c8Cfg2
             values := c8St0.values
             selectedValues := c8St0.selectedValues
             collapsed := c8Cfg2.collapsed.getD false
             visibleCount := c8Cfg2.maxValues.getD 10
             loading := false } :=
  ⟨by decide, c8_addFacet_rereg c8Map1 c8Cfg2 c8St0 (by decide)⟩

namespace SearchCoordinatorService

variable {α : Type}

theorem activeGen_le_step (m : SearchCoordinatorService α) (e : PipeEvent α) :
    m.activeGen ≤ (step m e).activeGen := by
  cases e <;> simp only [step]
  all_goals repeat' split
  all_goals first
    | exact Nat.le_refl _
    | exact Nat.le_succ _

theorem activeGen_le_run (evs : List (PipeEvent α))
    (m : SearchCoordinatorService α) :
    m.activeGen ≤ (run m evs).activeGen := by
  induction evs generalizing m with
  | nil => exact Nat.le_refl _
  | cons e tl ih =>
    exact Nat.le_trans (activeGen_le_step m e) (ih (step m e))

theorem step_stale_resolve (m : SearchCoordinatorService α) {g : Nat}
    (r : SearchResponse α) (t : Nat) (hg : g ≠ m.activeGen) :
    step m (.adapterResolve g r t) = m := by
  simp only [step]
  rw [if_neg]
  intro h
  exact hg h.2

theorem step_stale_reject (m : SearchCoordinatorService α) {g : Nat}
    (err : String) (t : Nat) (hg : g ≠ m.activeGen) :
    step m (.adapterReject g err t) = m := by
  simp only [step]
  rw [if_neg]
  intro h
  exact hg h.2

theorem step_searchCall_fields (m : SearchCoordinatorService α)
    (q : SearchQuery) (t : Nat) (hsub : m.subscribed = true)
    (had : m.hasAdapter = true) (hq : validQuery m.config q = true) :
    (step m (.searchCall q t)).activeGen = m.activeGen + 1 ∧
    (step m (.searchCall q t)).subscribed = true ∧
    (step m (.searchCall q t)).hasAdapter = true ∧
    (step m (.searchCall q t)).config = m.config ∧
    (step m (.searchCall q t)).phase = .debouncing q t := by
  simp [step, hsub, had, hq]

theorem step_subscribed_false (m : SearchCoordinatorService α)
    (e : PipeEvent α) (h : m.subscribed = false) :
    (step m e).subscribed = false := by
  cases e <;> simp only [step, h]
  all_goals repeat' split
  all_goals simp_all

theorem run_subscribed_false (evs : List (PipeEvent α))
    (m : SearchCoordinatorService α) (h : m.subscribed = false) :
    (run m evs).subscribed = false := by
  induction evs generalizing m with
  | nil => exact h
  | cons e tl ih => exact ih (step m e) (step_subscribed_false m e h)

theorem step_searchCall_unsubscribed (m : SearchCoordinatorService α)
    {q : SearchQuery} {t : Nat} (h : m.subscribed = false) :
    step m (.searchCall q t) = m := by
  simp [step, h]

theorem handleSearchResponse_results (c : SearchStateService α)
    (r : SearchResponse α) (t : Nat) :
    (handleSearchResponse c r t).results = r.results := by
  unfold handleSearchResponse
  cases r.aggregations <;> cases hs : r.suggestions <;>
    simp [SearchStateService.setResults, SearchStateService.setAggregations,
      SearchStateService.setSuggestions, SearchStateService.emitEvent] <;>
    split <;>
    simp [SearchStateService.setResults, SearchStateService.setAggregations,
      SearchStateService.setSuggestions, SearchStateService.emitEvent]

theorem handleSearchResponse_total (c : SearchStateService α)
    (r : SearchResponse α) (t : Nat) :
    (handleSearchResponse c r t).total = r.total := by
  unfold handleSearchResponse
  cases r.aggregations <;> cases hs : r.suggestions <;>
    simp [SearchStateService.setResults, SearchStateService.setAggregations,
      SearchStateService.setSuggestions, SearchStateService.emitEvent] <;>
    split <;>
    simp [SearchStateService.setResults, SearchStateService.setAggregations,
      SearchStateService.setSuggestions, SearchStateService.emitEvent]

theorem handleSearchResponse_aggregations (c : SearchStateService α)
    (r : SearchResponse α) (t : Nat) :
    (handleSearchResponse c r t).aggregations
      = r.aggregations.getD c.aggregations := by
  unfold handleSearchResponse
  cases r.aggregations <;> cases hs : r.suggestions <;>
    simp [SearchStateService.setResults, SearchStateService.setAggregations,
      SearchStateService.setSuggestions, SearchStateService.emitEvent] <;>
    split <;>
    simp [SearchStateService.setResults, SearchStateService.setAggregations,
      SearchStateService.setSuggestions, SearchStateService.emitEvent]

/-- Completing the current generation's pipeline: its debounce timer fires
and the adapter responds with `rB`. -/
theorem run_complete (m : SearchCoordinatorService α) (q : SearchQuery)
    (t0 : Nat) (hsub : m.subscribed = true) (had : m.hasAdapter = true)
    (hph : m.phase = .debouncing q t0) (rB : SearchResponse α) (t1 : Nat) :
    run m [.timerFire m.activeGen, .adapterResolve m.activeGen rB t1]
      = { m with
          container :=
            (((handleSearchResponse m.container rB t1).markSearchCompleted q
              rB.total (some (rB.took.getD (t1 - t0))) t1).setLoading false)
          phase := .idle } := by
  show step (step m (.timerFire m.activeGen)) (.adapterResolve m.activeGen rB t1) = _
  have h1 : step m (.timerFire m.activeGen)
      = { m with phase := .awaitingAdapter q t0 } := by
    simp [step, hsub, had, hph]
  rw [h1]
  simp [step, hsub, had]

end SearchCoordinatorService

/-- C10: after `cancel()`, the search trigger has no live subscription and
none is ever re-created: whatever happens afterwards, the coordinator stays
unsubscribed and any later `search()` call leaves the whole coordinator —
container included — completely unchanged. -/
theorem c10_cancel_inert {α : Type} (m : SearchCoordinatorService α)
    (evs : List (PipeEvent α)) (q : SearchQuery) (t : Nat) :
    (SearchCoordinatorService.run
        (SearchCoordinatorService.step m .cancelCall) evs).subscribed = false ∧
    SearchCoordinatorService.step
        (SearchCoordinatorService.run
          (SearchCoordinatorService.step m .cancelCall) evs)
        (.searchCall q t)
      = SearchCoordinatorService.run
          (SearchCoordinatorService.step m .cancelCall) evs := by
  have h0 : (SearchCoordinatorService.step m .cancelCall).subscribed = false := by
    simp only [SearchCoordinatorService.step]
  have h1 := SearchCoordinatorService.run_subscribed_false evs _ h0
  exact ⟨h1, SearchCoordinatorService.step_searchCall_unsubscribed _ h1⟩

/-- C1: issue `search(qA)` and then `search(qB)` before A's backend call has
resolved.  Then (i) from that point on, whatever else happens, the arrival
of A's response changes nothing at all (its results are never written), and
(ii) once B's pipeline completes with response `rB` — whether A's response
arrives after B completes or already between B's issue and B's completion —
the container's results, total and aggregations are those of `rB`. -/
theorem c1_cancel_superseded {α : Type} (m0 : SearchCoordinatorService α)
    (qA qB : SearchQuery) (tA tB : Nat)
    (hsub : m0.subscribed = true) (had : m0.hasAdapter = true)
    (hqA : SearchCoordinatorService.validQuery m0.config qA = true)
    (hqB : SearchCoordinatorService.validQuery m0.config qB = true) :
    let m1 := SearchCoordinatorService.step m0 (.searchCall qA tA)
    let gA := m1.activeGen
    let m2 := SearchCoordinatorService.step m1 (.searchCall qB tB)
    (∀ (evs : List (PipeEvent α)) (r : SearchResponse α) (t : Nat),
        SearchCoordinatorService.step (SearchCoordinatorService.run m2 evs)
            (.adapterResolve gA r t)
          = SearchCoordinatorService.run m2 evs) ∧
    (∀ (rA rB : SearchResponse α) (t1 t2 : Nat),
        ((SearchCoordinatorService.run m2
            [.timerFire m2.activeGen, .adapterResolve m2.activeGen rB t1,
             .adapterResolve gA rA t2]).container.results = rB.results ∧
         (SearchCoordinatorService.run m2
            [.timerFire m2.activeGen, .adapterResolve m2.activeGen rB t1,
             .adapterResolve gA rA t2]).container.total = rB.total ∧
         (SearchCoordinatorService.run m2
            [.timerFire m2.activeGen, .adapterResolve m2.activeGen rB t1,
             .adapterResolve gA rA t2]).container.aggregations
            = rB.aggregations.getD m2.container.aggregations)) ∧
    (∀ (rA rB : SearchResponse α) (t1 t2 : Nat),
        ((SearchCoordinatorService.run m2
            [.adapterResolve gA rA t1, .timerFire m2.activeGen,
             .adapterResolve m2.activeGen rB t2]).container.results = rB.results ∧
         (SearchCoordinatorService.run m2
            [.adapterResolve gA rA t1, .timerFire m2.activeGen,
             .adapterResolve m2.activeGen rB t2]).container.total = rB.total)) := by
  intro m1 gA m2
  have hA := SearchCoordinatorService.step_searchCall_fields m0 qA tA hsub had hqA
  have h1sub : m1.subscribed = true := hA.2.1
  have h1ad : m1.hasAdapter = true := hA.2.2.1
  have h1cfg : m1.config = m0.config := hA.2.2.2.1
  have hB := SearchCoordinatorService.step_searchCall_fields m1 qB tB h1sub h1ad
    (by rw [h1cfg]; exact hqB)
  have hg2 : m2.activeGen = gA + 1 := hB.1
  have h2sub : m2.subscribed = true := hB.2.1
  have h2ad : m2.hasAdapter = true := hB.2.2.1
  have h2ph : m2.phase = .debouncing qB tB := hB.2.2.2.2
  refine ⟨?_, ?_, ?_⟩
  · intro evs r t
    refine SearchCoordinatorService.step_stale_resolve _ r t ?_
    have hm := SearchCoordinatorService.activeGen_le_run evs m2
    omega
  · intro rA rB t1 t2
    have hrc := SearchCoordinatorService.run_complete m2 qB tB h2sub h2ad h2ph rB t1
    have hrcA : (SearchCoordinatorService.run m2
        [.timerFire m2.activeGen, .adapterResolve m2.activeGen rB t1]).activeGen
        = m2.activeGen := by rw [hrc]
    have hne : gA ≠ (SearchCoordinatorService.run m2
        [.timerFire m2.activeGen, .adapterResolve m2.activeGen rB t1]).activeGen := by
      rw [hrcA]
      omega
    have hsplit : SearchCoordinatorService.run m2
        [.timerFire m2.activeGen, .adapterResolve m2.activeGen rB t1,
         .adapterResolve gA rA t2]
        = SearchCoordinatorService.step
            (SearchCoordinatorService.run m2
              [.timerFire m2.activeGen, .adapterResolve m2.activeGen rB t1])
            (.adapterResolve gA rA t2) := rfl
    have hstale := SearchCoordinatorService.step_stale_resolve
      (SearchCoordinatorService.run m2
        [.timerFire m2.activeGen, .adapterResolve m2.activeGen rB t1]) rA t2 hne
    rw [hsplit, hstale, hrc]
    refine ⟨?_, ?_, ?_⟩ <;>
      simp [SearchStateService.setLoading, SearchStateService.markSearchCompleted,
        SearchStateService.emitEvent,
        SearchCoordinatorService.handleSearchResponse_results,
        SearchCoordinatorService.handleSearchResponse_total,
        SearchCoordinatorService.handleSearchResponse_aggregations]
  · intro rA rB t1 t2
    have hne0 : gA ≠ m2.activeGen := by omega
    have hstale0 := SearchCoordinatorService.step_stale_resolve m2 rA t1 hne0
    have hsplit3 : SearchCoordinatorService.run m2
        [.adapterResolve gA rA t1, .timerFire m2.activeGen,
         .adapterResolve m2.activeGen rB t2]
        = SearchCoordinatorService.run
            (SearchCoordinatorService.step m2 (.adapterResolve gA rA t1))
            [.timerFire m2.activeGen, .adapterResolve m2.activeGen rB t2] := rfl
    have hrc2 := SearchCoordinatorService.run_complete m2 qB tB h2sub h2ad h2ph rB t2
    rw [hsplit3, hstale0, hrc2]
    refine ⟨?_, ?_⟩ <;>
      simp [SearchStateService.setLoading, SearchStateService.markSearchCompleted,
        SearchStateService.emitEvent,
        SearchCoordinatorService.handleSearchResponse_results,
        SearchCoordinatorService.handleSearchResponse_total]

/-- A live coordinator with an adapter installed. -/
def c1Coord : SearchCoordinatorService Nat :=
  { SearchCoordinatorService.init Nat with hasAdapter := true }

/-- Query A. -/
def c1QA : SearchQuery where
  query := "rick"
  size := 10
  fromOffset := 0
  sort := []
  filters := []

/-- Query B. -/
def c1QB : SearchQuery where
  query := "morty"
  size := 10
  fromOffset := 0
  sort := []
  filters := []

/-- Witness for C1 at a concrete coordinator and pair of queries. -/
theorem c1_cancel_superseded_witness :
    (c1Coord.subscribed = true ∧ c1Coord.hasAdapter = true ∧
     SearchCoordinatorService.validQuery c1Coord.config c1QA = true ∧
     SearchCoordinatorService.validQuery c1Coord.config c1QB = true) ∧
    (let m1 := SearchCoordinatorService.step c1Coord (.searchCall c1QA 1)
     let gA := m1.activeGen
     let m2 := SearchCoordinatorService.step m1 (.searchCall c1QB 2)
     (∀ (evs : List (PipeEvent Nat)) (r : SearchResponse Nat) (t : Nat),
        SearchCoordinatorService.step (SearchCoordinatorService.run m2 evs)
            (.adapterResolve gA r t)
          = SearchCoordinatorService.run m2 evs) ∧
     (∀ (rA rB : SearchResponse Nat) (t1 t2 : Nat),
        ((SearchCoordinatorService.run m2
            [.timerFire m2.activeGen, .adapterResolve m2.activeGen rB t1,
             .adapterResolve gA rA t2]).container.results = rB.results ∧
         (SearchCoordinatorService.run m2
            [.timerFire m2.activeGen, .adapterResolve m2.activeGen rB t1,
             .adapterResolve gA rA t2]).container.total = rB.total ∧
         (SearchCoordinatorService.run m2
            [.timerFire m2.activeGen, .adapterResolve m2.activeGen rB t1,
             .adapterResolve gA rA t2]).container.aggregations
            = rB.aggregations.getD m2.container.aggregations)) ∧
     (∀ (rA rB : SearchResponse Nat) (t1 t2 : Nat),
        ((SearchCoordinatorService.run m2
            [.adapterResolve gA rA t1, .timerFire m2.activeGen,
             .adapterResolve m2.activeGen rB t2]).container.results = rB.results ∧
         (SearchCoordinatorService.run m2
            [.adapterResolve gA rA t1, .timerFire m2.activeGen,
             .adapterResolve m2.activeGen rB t2]).container.total = rB.total))) :=
  ⟨⟨rfl, rfl, by decide, by decide⟩,
   c1_cancel_superseded c1Coord c1QA c1QB 1 2 rfl rfl (by decide) (by decide)⟩
